import Mathlib

/-!
Shallow embedding of the delegated-transaction relayer core:
`src/modules/transactions.js` (the reconciliation pass `syncAndPublish` and the
publisher `publishTransaction`) and the delegate-request store module
(`create` and the status table).

Modelling conventions:
* A JavaScript number-valued cursor is `Option Int`: `none` stands for `NaN`
  (e.g. `undefined + 1`); a present value is `some n`.
* A possibly-absent (`undefined`) document field is an `Option`.
* The chain gateway (`provider`, `getContract` from `modules/ethers`, which is
  outside `src/`) is an oracle structure `Chain`, modelled from the spec's
  ChainGateway interface (§6).
* The unbounded retry loop of `publishTransaction` takes a fuel parameter;
  `none` as a result means the loop did not terminate within the fuel.
-/

namespace Tx

/-- Error codes exposed by the chain client (`errorCode` re-exported from
`modules/ethers`): the three distinguished kinds the core branches on, plus an
opaque rest. -/
inductive ErrCode
  | NONCE_EXPIRED
  | REPLACEMENT_UNDERPRICED
  | INSUFFICIENT_FUNDS
  | other (s : String)
deriving DecidableEq, Repr

/-- A JavaScript error as the core observes it: an optional `code` property and
the text produced by `e.toString()`. -/
structure JsError where
  code : Option ErrCode
  descr : String
deriving DecidableEq, Repr

/-- A numeric receipt field as delivered by the chain client: either a
BigNumber object or a plain JS number. JS unary plus (`+x`) turns the former
into the latter. -/
inductive EthAmount
  | bigNum (n : Int)
  | num (n : Int)
deriving DecidableEq, Repr

/-- JS unary plus on a receipt field: de-bignumberify. -/
def unaryPlus : EthAmount → EthAmount
  | .bigNum n => .num n
  | .num n => .num n

/-- Whether a receipt field is a plain JS number (not a BigNumber). -/
def EthAmount.isPlain : EthAmount → Bool
  | .bigNum _ => false
  | .num _ => true

/-- Transaction receipt as read from the chain: confirmation count and the two
numeric fields the code normalizes. -/
structure TxReceipt where
  confirmations : Int
  gasUsed : EthAmount
  cumulativeGasUsed : EthAmount
deriving DecidableEq, Repr

namespace DelegateRequest

namespace status

def new : Nat := 0

def confirmed : Nat := 1

def mining : Nat := 2

def mined : Nat := 3

def failed : Nat := 4

end status

end DelegateRequest

/-- A persisted delegate-request document, restricted to the fields the
reconciliation pass reads or writes. `docId` is the MongoDB `_id`; documents
are stored in natural (insertion) order of `docId`. -/
structure Request where
  docId : Nat
  status : Nat
  nonce : Option Int
  transactionHash : Option String
  txReceipt : Option TxReceipt
  reason : Option String
deriving DecidableEq, Repr

/-- JS truthiness of a number-or-undefined value: `undefined`, `NaN` and `0`
are falsy. -/
def jsTruthy : Option Int → Bool
  | none => false
  | some n => n != 0

/-- JS `x + 1` on a number-or-undefined value: `undefined + 1 = NaN`,
`NaN + 1 = NaN`. -/
def jsAdd1 : Option Int → Option Int
  | none => none
  | some n => some (n + 1)

/-- Modelled from the spec: the ChainGateway (spec §6), i.e. `provider` and
`getContract` from `modules/ethers`, which is not under `src/`.
`getTransactionCount` is the chain's reported transaction count (including
pending) for the relayer wallet's address; `getTransactionReceipt` and
`getTransaction` are keyed by the (possibly absent) transaction hash;
`getTransaction` returns the mined transaction's nonce; `submit` is the
contract call `contract.functions[name](...args, { nonce })` for a given
request and candidate nonce, returning a transaction hash or throwing. -/
structure Chain where
  getTransactionCount : Int
  getTransactionReceipt : Option String → Option TxReceipt
  getTransaction : Option String → Int
  submit : Request → Option Int → Except JsError String

/-- `publishTransaction(confirmedRequest, nonce)`: try the contract call with
the candidate nonce; on a `NONCE_EXPIRED` or `REPLACEMENT_UNDERPRICED` error
increment the nonce and retry; rethrow any other error; on success return the
hash and the nonce that succeeded. The extra fuel argument bounds the
unbounded `while (true)` loop: `none` means it did not finish in `fuel`
attempts. -/
def publishTransaction (chain : Chain) (confirmedRequest : Request) :
    Option Int → Nat → Option (Except JsError (String × Option Int))
  | _, 0 => none
  | nonce, fuel + 1 =>
    match chain.submit confirmedRequest nonce with
    | .ok transactionHash => some (.ok (transactionHash, nonce))
    | .error e =>
      if e.code = some ErrCode.NONCE_EXPIRED ∨ e.code = some ErrCode.REPLACEMENT_UNDERPRICED then
        publishTransaction chain confirmedRequest (jsAdd1 nonce) fuel
      else
        some (.error e)

/-- Outcome of the loop body of `syncAndPublish` for one request: the new
cursor and the document written by `findOneAndUpdate` (with its `$set`
applied), if any; or divergence of the publish retry loop. -/
inductive StepOutcome
  | step (cursor : Option Int) (update : Option Request)
  | outOfFuel
deriving DecidableEq, Repr

/-- The body of the `for` loop of `syncAndPublish` (steps 3.1-3.3), for one
request, given the running `nextNonce` cursor. Returns the new cursor and the
updated document persisted for this request, if any. -/
def processRequest (requiredConfirmations : Int) (chain : Chain) (fuel : Nat)
    (nextNonce : Option Int) (request : Request) : StepOutcome :=
  if request.status = DelegateRequest.status.mined then
    -- Step 3.1: mined: just pick up the nonce and keep going
    .step (jsAdd1 request.nonce) none
  else if request.status = DelegateRequest.status.mining then
    -- Step 3.2: mining: look at the receipt
    match chain.getTransactionReceipt request.transactionHash with
    | some txReceipt =>
      if txReceipt.confirmations < requiredConfirmations then
        -- not enough confirmations: leave as mining
        .step (if jsTruthy request.nonce then jsAdd1 request.nonce else jsAdd1 nextNonce) none
      else
        -- enough confirmations: de-bignumberify, fetch the authoritative
        -- nonce from the chain, mark as mined
        let normalized : TxReceipt :=
          { txReceipt with
            gasUsed := unaryPlus txReceipt.gasUsed,
            cumulativeGasUsed := unaryPlus txReceipt.cumulativeGasUsed }
        let nonce := chain.getTransaction request.transactionHash
        .step (some (nonce + 1))
          (some { request with
                  status := DelegateRequest.status.mined,
                  txReceipt := some normalized,
                  nonce := some nonce })
    | none =>
      -- no receipt so far: just wait (++nextNonce)
      .step (jsAdd1 nextNonce) none
  else if request.status = DelegateRequest.status.confirmed then
    -- Step 3.3: confirmed: publish
    match publishTransaction chain request nextNonce fuel with
    | some (.ok (transactionHash, nonce)) =>
      .step (jsAdd1 nonce)
        (some { request with
                status := DelegateRequest.status.mining,
                transactionHash := some transactionHash,
                nonce := nonce })
    | some (.error e) =>
      .step nextNonce
        (some { request with
                status := DelegateRequest.status.failed,
                reason := some (if e.code = some ErrCode.INSUFFICIENT_FUNDS
                  then "Delegate account has no Ether on its balance"
                  else "Transaction error when publishing: " ++ e.descr) })
    | none => .outOfFuel
  else
    -- unknown status: warn and skip
    .step nextNonce none

/-- The `for` loop of `syncAndPublish` over the request queue: threads the
cursor through `processRequest` and collects the persisted updates in order.
`none` means some publish retry loop ran out of fuel. -/
def runQueue (requiredConfirmations : Int) (chain : Chain) (fuel : Nat) :
    Option Int → List Request → Option (Option Int × List Request)
  | nextNonce, [] => some (nextNonce, [])
  | nextNonce, request :: rest =>
    match processRequest requiredConfirmations chain fuel nextNonce request with
    | .outOfFuel => none
    | .step c u =>
      match runQueue requiredConfirmations chain fuel c rest with
      | none => none
      | some (cf, updates) => some (cf, u.toList ++ updates)

/-- A runtime error of the pass itself (an uncaught JS exception). -/
inductive JsRuntimeError
  | typeErrorUndefined
deriving DecidableEq, Repr

/-- JS property access `doc[k]` for a numeric key `k` on a delegate-request
document. Documents are created by `create` and mutated only through `$set` of
the named fields `status`, `nonce`, `transactionHash`, `txReceipt`, `reason`,
so no numeric key is ever present: the access yields `undefined`. -/
def Request.indexNum (_r : Request) (_k : Nat) : Option Request := none

/-- Step 1 of `syncAndPublish`: determine `nextNonce` from the most recent
mined document (or the chain's transaction count when there is none). The
source line is `nextNonce = lastMinedTx[0].nonce + 1`, where `lastMinedTx` is
already the document itself — `lastMinedTx[0]` is `undefined`, so reading
`.nonce` on it throws a TypeError. -/
def resolveStartingNonce (lastMinedTx : Option Request) (txCount : Int) :
    Except JsRuntimeError Int :=
  match lastMinedTx with
  | none => .ok txCount
  | some doc =>
    match doc.indexNum 0 with
    | some inner => .ok ((inner.nonce.getD 0) + 1) -- unreachable: indexNum is constantly none
    | none => .error JsRuntimeError.typeErrorUndefined

/-- The most recent document with status `mined` (the `$natural: -1`,
`limit(1)` query), for a store listed in natural order. -/
def lastMined (store : List Request) : Option Request :=
  (store.filter (fun r => r.status == DelegateRequest.status.mined)).getLast?

/-- The starting cursor computation of a pass (step 1 of `syncAndPublish`). -/
def startingNonce (store : List Request) (chain : Chain) : Except JsRuntimeError Int :=
  resolveStartingNonce (lastMined store) chain.getTransactionCount

/-- Step 2 of `syncAndPublish`: the backlog query — every document after the
last mined one whose status is `confirmed`, `mining` or `mined`, in natural
order. -/
def requestQueue (store : List Request) : List Request :=
  store.filter (fun r =>
    (match lastMined store with
     | none => true
     | some m => decide (m.docId < r.docId)) &&
    (r.status == DelegateRequest.status.confirmed ||
     r.status == DelegateRequest.status.mining ||
     r.status == DelegateRequest.status.mined))

/-- The whole reconciliation pass `syncAndPublish`: compute the starting
cursor, then walk the backlog. `.error` is an uncaught exception aborting the
pass; `.ok none` is divergence of a publish retry loop; `.ok (some (c, us))`
is normal completion with final cursor `c` and persisted updates `us`. -/
def syncAndPublish (requiredConfirmations : Int) (chain : Chain) (fuel : Nat)
    (store : List Request) :
    Except JsRuntimeError (Option (Option Int × List Request)) :=
  match startingNonce store chain with
  | .error e => .error e
  | .ok n => .ok (runQueue requiredConfirmations chain fuel (some n) (requestQueue store))

/-- The caller-supplied `context` of a request, restricted to the field
`create` interprets: an optional expiry as a Unix-seconds timestamp. -/
structure CreateContext where
  expiresAt : Option Int
deriving DecidableEq, Repr

/-- The timestamp fields of the document inserted by `create`
(`new Date(...)` values as milliseconds since the epoch), plus the initial
status. -/
structure CreatedRequestDoc where
  status : Nat
  createdAt : Int
  expiresAt : Int
deriving DecidableEq, Repr

/-- `create` from the delegate-request store module: inserts a document with
status `new`, `createdAt = now` and
`expiresAt = context.expiresAt ? new Date(context.expiresAt * 1000)
: new Date(now.getTime() + instanceConfig.defaultExpiresAtSeconds * 1000)`. -/
def create (defaultExpiresAtSeconds : Int) (nowMs : Int) (context : CreateContext) :
    CreatedRequestDoc :=
  { status := DelegateRequest.status.new,
    createdAt := nowMs,
    expiresAt :=
      if jsTruthy context.expiresAt then (context.expiresAt.getD 0) * 1000
      else nowMs + defaultExpiresAtSeconds * 1000 }

/-! Concrete inputs used by the witnesses and counterexamples. -/

/-- A receipt with too few confirmations (threshold 3 in the examples). -/
def rcLow : TxReceipt :=
  { confirmations := 1, gasUsed := .bigNum 21000, cumulativeGasUsed := .bigNum 42000 }

/-- A receipt with enough confirmations (threshold 3 in the examples). -/
def rcHigh : TxReceipt :=
  { confirmations := 5, gasUsed := .bigNum 21000, cumulativeGasUsed := .bigNum 42000 }

/-- A mined request with nonce 5. -/
def reqMined5 : Request :=
  { docId := 1, status := DelegateRequest.status.mined, nonce := some 5,
    transactionHash := some "0xaaa", txReceipt := none, reason := none }

/-- A mining request whose recorded nonce is 0. -/
def reqMiningNonce0 : Request :=
  { docId := 2, status := DelegateRequest.status.mining, nonce := some 0,
    transactionHash := some "0xabc", txReceipt := none, reason := none }

/-- A mining request whose recorded nonce is 4. -/
def reqMiningNonce4 : Request :=
  { docId := 3, status := DelegateRequest.status.mining, nonce := some 4,
    transactionHash := some "0xabc", txReceipt := none, reason := none }

/-- A confirmed request, not yet published. -/
def reqConfirmedA : Request :=
  { docId := 4, status := DelegateRequest.status.confirmed, nonce := none,
    transactionHash := none, txReceipt := none, reason := none }

/-- A second confirmed request, after `reqConfirmedA` in natural order. -/
def reqConfirmedB : Request :=
  { docId := 5, status := DelegateRequest.status.confirmed, nonce := none,
    transactionHash := none, txReceipt := none, reason := none }

/-- An opaque submission error with no `code` property. -/
def errBoom : JsError := { code := none, descr := "boom" }

/-- The insufficient-funds submission error. -/
def errNoFunds : JsError :=
  { code := some ErrCode.INSUFFICIENT_FUNDS, descr := "insufficient funds" }

/-- The nonce-already-used submission error. -/
def errNonceUsed : JsError :=
  { code := some ErrCode.NONCE_EXPIRED, descr := "nonce has already been used" }

/-- A chain with transaction count 7 where nothing else is observable. -/
def chainA : Chain :=
  { getTransactionCount := 7,
    getTransactionReceipt := fun _ => none,
    getTransaction := fun _ => 0,
    submit := fun _ _ => .error errBoom }

/-- A chain whose receipts all report 1 confirmation. -/
def chainB : Chain :=
  { getTransactionCount := 7,
    getTransactionReceipt := fun _ => some rcLow,
    getTransaction := fun _ => 7,
    submit := fun _ _ => .error errBoom }

/-- A chain whose receipts all report 5 confirmations, with the mined
transaction's nonce being 7. -/
def chainHigh : Chain :=
  { getTransactionCount := 7,
    getTransactionReceipt := fun _ => some rcHigh,
    getTransaction := fun _ => 7,
    submit := fun _ _ => .error errBoom }

/-- A chain on which every submission fails with an opaque error. -/
def chainFail : Chain :=
  { getTransactionCount := 7,
    getTransactionReceipt := fun _ => none,
    getTransaction := fun _ => 0,
    submit := fun _ _ => .error errBoom }

/-- A chain on which every submission fails with the insufficient-funds
error. -/
def chainNoFunds : Chain :=
  { getTransactionCount := 7,
    getTransactionReceipt := fun _ => none,
    getTransaction := fun _ => 0,
    submit := fun _ _ => .error errNoFunds }

/-- A chain on which submitting with nonce 10 hits a nonce-already-used error
and nonce 11 succeeds with hash `0xbbb`. -/
def chainConflict : Chain :=
  { getTransactionCount := 7,
    getTransactionReceipt := fun _ => none,
    getTransaction := fun _ => 0,
    submit := fun _ n =>
      if n = some 10 then .error errNonceUsed
      else if n = some 11 then .ok "0xbbb"
      else .error errBoom }

/-! Claim theorems. -/

/-- C1: resume correctness fails in the code. On a store whose most recent
mined request has nonce 5, the starting-cursor computation does not yield
5 + 1 = 6: the pass reads `lastMinedTx[0].nonce` where `lastMinedTx` is
already the document itself, so `lastMinedTx[0]` is `undefined` and the read
throws a TypeError, aborting the whole pass. -/
theorem c1_resume_throws_type_error :
    startingNonce [reqMined5] chainA = .error JsRuntimeError.typeErrorUndefined ∧
    syncAndPublish 3 chainA 5 [reqMined5] = .error JsRuntimeError.typeErrorUndefined :=
  ⟨rfl, rfl⟩

/-- C6: bootstrap correctness. When no request in the store has status
`mined`, the starting cursor of the pass is the chain's reported transaction
count for the relayer wallet, and the pass walks the backlog starting from
exactly that cursor. -/
theorem c6_bootstrap (requiredConfirmations : Int) (chain : Chain) (fuel : Nat)
    (store : List Request)
    (h : ∀ r ∈ store, r.status ≠ DelegateRequest.status.mined) :
    startingNonce store chain = .ok chain.getTransactionCount ∧
    syncAndPublish requiredConfirmations chain fuel store =
      .ok (runQueue requiredConfirmations chain fuel
        (some chain.getTransactionCount) (requestQueue store)) := by
  have hf : store.filter (fun r => r.status == DelegateRequest.status.mined) = [] := by
    rw [List.filter_eq_nil_iff]
    intro r hr
    simpa using h r hr
  have hlm : lastMined store = none := by
    rw [lastMined, hf]
    rfl
  have h1 : startingNonce store chain = .ok chain.getTransactionCount := by
    rw [startingNonce, hlm]
    rfl
  refine ⟨h1, ?_⟩
  rw [syncAndPublish, h1]

/-- Witness for C6 at a concrete input: a store holding a single confirmed
request and a chain reporting transaction count 7. -/
theorem c6_bootstrap_witness :
    startingNonce [reqConfirmedA] chainA = .ok 7 ∧
    syncAndPublish 3 chainA 5 [reqConfirmedA] =
      .ok (runQueue 3 chainA 5 (some 7) (requestQueue [reqConfirmedA])) :=
  c6_bootstrap 3 chainA 5 [reqConfirmedA] (by decide)

/-- C2 counterexample: a `mining` request with recorded nonce 0 and a receipt
with 1 < 3 confirmations, processed at cursor 5. The code's truthiness test
`request.nonce ? ... : ...` treats nonce 0 as absent, so the cursor becomes
5 + 1 = 6, not the claimed `request.nonce + 1 = 1`. -/
theorem c2_counterexample :
    processRequest 3 chainB 5 (some 5) reqMiningNonce0 = .step (some 6) none ∧
    processRequest 3 chainB 5 (some 5) reqMiningNonce0 ≠
      .step (jsAdd1 reqMiningNonce0.nonce) none := by
  constructor
  · decide
  · decide

/-- C2 (amended): for a `mining` request whose receipt exists but reports
fewer confirmations than required, no update is persisted (the status stays
`mining`) and the cursor becomes `request.nonce + 1` when the recorded nonce
is truthy (present and nonzero), and the old cursor + 1 when the nonce is
absent or zero. -/
theorem c2_below_threshold (requiredConfirmations : Int) (chain : Chain) (fuel : Nat)
    (cursor : Option Int) (r : Request) (rc : TxReceipt)
    (hs : r.status = DelegateRequest.status.mining)
    (hr : chain.getTransactionReceipt r.transactionHash = some rc)
    (hc : rc.confirmations < requiredConfirmations) :
    (jsTruthy r.nonce = true →
      processRequest requiredConfirmations chain fuel cursor r =
        .step (jsAdd1 r.nonce) none) ∧
    (jsTruthy r.nonce = false →
      processRequest requiredConfirmations chain fuel cursor r =
        .step (jsAdd1 cursor) none) := by
  rw [processRequest, hs, hr]
  constructor <;> intro ht <;>
    simp [DelegateRequest.status.mining, DelegateRequest.status.mined, hc, ht]

/-- Witness for C2 (amended) at a concrete input: a mining request with
recorded nonce 4, cursor 9, threshold 3, receipt with 1 confirmation; the
cursor becomes 4 + 1 = 5. -/
theorem c2_below_threshold_witness :
    processRequest 3 chainB 5 (some 9) reqMiningNonce4 = .step (some 5) none :=
  (c2_below_threshold 3 chainB 5 (some 9) reqMiningNonce4 rcLow rfl rfl
    (by decide)).1 rfl

/-- C3: failure isolation. If a confirmed request's publish attempt raises,
the code persists a failed document for it, the cursor after the request
equals the cursor before it, and the rest of the queue is processed with that
unchanged cursor (the pass does not abort). -/
theorem c3_failure_isolation (requiredConfirmations : Int) (chain : Chain) (fuel : Nat)
    (cursor : Option Int) (r : Request) (e : JsError) (rest : List Request)
    (hs : r.status = DelegateRequest.status.confirmed)
    (hp : publishTransaction chain r cursor fuel = some (.error e)) :
    ∃ d, processRequest requiredConfirmations chain fuel cursor r = .step cursor (some d) ∧
      runQueue requiredConfirmations chain fuel cursor (r :: rest) =
        (runQueue requiredConfirmations chain fuel cursor rest).map
          (fun p => (p.1, d :: p.2)) := by
  have hpr : processRequest requiredConfirmations chain fuel cursor r =
      .step cursor (some { r with
        status := DelegateRequest.status.failed,
        reason := some (if e.code = some ErrCode.INSUFFICIENT_FUNDS
          then "Delegate account has no Ether on its balance"
          else "Transaction error when publishing: " ++ e.descr) }) := by
    rw [processRequest, hs, hp]
    simp [DelegateRequest.status.confirmed, DelegateRequest.status.mined,
      DelegateRequest.status.mining]
  refine ⟨_, hpr, ?_⟩
  cases hq : runQueue requiredConfirmations chain fuel cursor rest with
  | none => simp [runQueue, hpr, hq]
  | some p => simp [runQueue, hpr, hq]

/-- Witness for C3 at a concrete input: two confirmed requests at cursor 7 on
a chain where every submission fails with an opaque error. -/
theorem c3_failure_isolation_witness :
    ∃ d, processRequest 3 chainFail 5 (some 7) reqConfirmedA = .step (some 7) (some d) ∧
      runQueue 3 chainFail 5 (some 7) [reqConfirmedA, reqConfirmedB] =
        (runQueue 3 chainFail 5 (some 7) [reqConfirmedB]).map
          (fun p => (p.1, d :: p.2)) :=
  c3_failure_isolation 3 chainFail 5 (some 7) reqConfirmedA errBoom [reqConfirmedB] rfl rfl

/-- C7: failure reason recording. When a confirmed request's publish attempt
raises, the persisted document has status failed, and its reason is the
distinguished balance-shortage message exactly when the error's code is
`INSUFFICIENT_FUNDS`, and the generic description of the error otherwise. -/
theorem c7_failure_reason (requiredConfirmations : Int) (chain : Chain) (fuel : Nat)
    (cursor : Option Int) (r : Request) (e : JsError)
    (hs : r.status = DelegateRequest.status.confirmed)
    (hp : publishTransaction chain r cursor fuel = some (.error e)) :
    ∃ d, processRequest requiredConfirmations chain fuel cursor r = .step cursor (some d) ∧
      d.status = DelegateRequest.status.failed ∧
      (e.code = some ErrCode.INSUFFICIENT_FUNDS →
        d.reason = some "Delegate account has no Ether on its balance") ∧
      (e.code ≠ some ErrCode.INSUFFICIENT_FUNDS →
        d.reason = some ("Transaction error when publishing: " ++ e.descr)) := by
  have hpr : processRequest requiredConfirmations chain fuel cursor r =
      .step cursor (some { r with
        status := DelegateRequest.status.failed,
        reason := some (if e.code = some ErrCode.INSUFFICIENT_FUNDS
          then "Delegate account has no Ether on its balance"
          else "Transaction error when publishing: " ++ e.descr) }) := by
    rw [processRequest, hs, hp]
    simp [DelegateRequest.status.confirmed, DelegateRequest.status.mined,
      DelegateRequest.status.mining]
  refine ⟨_, hpr, rfl, ?_, ?_⟩
  · intro hc
    simp [hc]
  · intro hc
    simp [hc]

/-- Witness for C7 at a concrete input: a confirmed request on a chain where
submission fails with the insufficient-funds error. -/
theorem c7_failure_reason_witness :
    ∃ d, processRequest 3 chainNoFunds 5 (some 7) reqConfirmedA = .step (some 7) (some d) ∧
      d.status = DelegateRequest.status.failed ∧
      (errNoFunds.code = some ErrCode.INSUFFICIENT_FUNDS →
        d.reason = some "Delegate account has no Ether on its balance") ∧
      (errNoFunds.code ≠ some ErrCode.INSUFFICIENT_FUNDS →
        d.reason = some ("Transaction error when publishing: " ++ errNoFunds.descr)) :=
  c7_failure_reason 3 chainNoFunds 5 (some 7) reqConfirmedA errNoFunds rfl rfl

/-- C10: failure-update frame. When a confirmed request's publish attempt
raises, the persisted update changes only `status` and `reason`: the
document's `docId`, `nonce`, `transactionHash` and `txReceipt` are exactly
those of the request before the attempt. -/
theorem c10_failed_update_frame (requiredConfirmations : Int) (chain : Chain) (fuel : Nat)
    (cursor : Option Int) (r : Request) (e : JsError)
    (hs : r.status = DelegateRequest.status.confirmed)
    (hp : publishTransaction chain r cursor fuel = some (.error e)) :
    ∃ d, processRequest requiredConfirmations chain fuel cursor r = .step cursor (some d) ∧
      d.docId = r.docId ∧ d.nonce = r.nonce ∧
      d.transactionHash = r.transactionHash ∧ d.txReceipt = r.txReceipt := by
  have hpr : processRequest requiredConfirmations chain fuel cursor r =
      .step cursor (some { r with
        status := DelegateRequest.status.failed,
        reason := some (if e.code = some ErrCode.INSUFFICIENT_FUNDS
          then "Delegate account has no Ether on its balance"
          else "Transaction error when publishing: " ++ e.descr) }) := by
    rw [processRequest, hs, hp]
    simp [DelegateRequest.status.confirmed, DelegateRequest.status.mined,
      DelegateRequest.status.mining]
  exact ⟨_, hpr, rfl, rfl, rfl, rfl⟩

/-- Witness for C10 at a concrete input: a confirmed request at cursor 8 on a
chain where every submission fails with an opaque error. -/
theorem c10_failed_update_frame_witness :
    ∃ d, processRequest 3 chainFail 4 (some 8) reqConfirmedB = .step (some 8) (some d) ∧
      d.docId = reqConfirmedB.docId ∧ d.nonce = reqConfirmedB.nonce ∧
      d.transactionHash = reqConfirmedB.transactionHash ∧
      d.txReceipt = reqConfirmedB.txReceipt :=
  c10_failed_update_frame 3 chainFail 4 (some 8) reqConfirmedB errBoom rfl rfl

/-- C4: publisher retry semantics. (1) On a nonce-already-used or
replacement-underpriced error the publisher retries with the candidate nonce
incremented by 1; (2) any other error ends the loop and is returned to the
caller unmodified; (3) on success the returned nonce is the one whose
submission actually succeeded; (4) the reconciler then persists
`{status: mining, transactionHash, nonce}` with that returned nonce and sets
its cursor to the returned nonce + 1. -/
theorem c4_publish_retry (chain : Chain) (r : Request) :
    (∀ (n : Option Int) (e : JsError) (fuel : Nat), chain.submit r n = .error e →
      (e.code = some ErrCode.NONCE_EXPIRED ∨ e.code = some ErrCode.REPLACEMENT_UNDERPRICED) →
      publishTransaction chain r n (fuel + 1) = publishTransaction chain r (jsAdd1 n) fuel) ∧
    (∀ (n : Option Int) (e : JsError) (fuel : Nat), chain.submit r n = .error e →
      e.code ≠ some ErrCode.NONCE_EXPIRED → e.code ≠ some ErrCode.REPLACEMENT_UNDERPRICED →
      publishTransaction chain r n (fuel + 1) = some (.error e)) ∧
    (∀ (fuel : Nat) (n nr : Option Int) (hash : String),
      publishTransaction chain r n fuel = some (.ok (hash, nr)) →
      chain.submit r nr = .ok hash) ∧
    (∀ (requiredConfirmations : Int) (fuel : Nat) (cursor nr : Option Int) (hash : String),
      r.status = DelegateRequest.status.confirmed →
      publishTransaction chain r cursor fuel = some (.ok (hash, nr)) →
      processRequest requiredConfirmations chain fuel cursor r =
        .step (jsAdd1 nr)
          (some { r with
                  status := DelegateRequest.status.mining,
                  transactionHash := some hash,
                  nonce := nr })) := by
  refine ⟨?_, ?_, ?_, ?_⟩
  · intro n e fuel hse hconf
    rw [publishTransaction, hse]
    exact if_pos hconf
  · intro n e fuel hse h1 h2
    rw [publishTransaction, hse]
    refine if_neg ?_
    rintro (h | h)
    · exact h1 h
    · exact h2 h
  · intro fuel
    induction fuel with
    | zero =>
      intro n nr hash hp
      simp [publishTransaction] at hp
    | succ fuel ih =>
      intro n nr hash hp
      cases hsub : chain.submit r n with
      | ok th =>
        have heq : publishTransaction chain r n (fuel + 1) = some (.ok (th, n)) := by
          rw [publishTransaction, hsub]
        rw [heq] at hp
        simp only [Option.some.injEq, Except.ok.injEq, Prod.mk.injEq] at hp
        obtain ⟨h1, h2⟩ := hp
        rw [← h1, ← h2]
        exact hsub
      | error e =>
        have heq : publishTransaction chain r n (fuel + 1) =
            if e.code = some ErrCode.NONCE_EXPIRED ∨
                e.code = some ErrCode.REPLACEMENT_UNDERPRICED
            then publishTransaction chain r (jsAdd1 n) fuel
            else some (.error e) := by
          rw [publishTransaction, hsub]
        rw [heq] at hp
        by_cases hc : e.code = some ErrCode.NONCE_EXPIRED ∨
            e.code = some ErrCode.REPLACEMENT_UNDERPRICED
        · rw [if_pos hc] at hp
          exact ih (jsAdd1 n) nr hash hp
        · rw [if_neg hc] at hp
          simp at hp
  · intro requiredConfirmations fuel cursor nr hash hs hp
    rw [processRequest, hs, hp]
    simp [DelegateRequest.status.confirmed, DelegateRequest.status.mined,
      DelegateRequest.status.mining]

/-- Witness for C4 at the spec's concrete scenario: offered nonce 10 hits a
nonce-already-used error, nonce 11 succeeds; the publisher returns nonce 11,
that nonce is the one the chain accepted, and the reconciler's cursor becomes
12. -/
theorem c4_publish_retry_witness :
    publishTransaction chainConflict reqConfirmedA (some 10) 2 =
      some (.ok ("0xbbb", some 11)) ∧
    chainConflict.submit reqConfirmedA (some 11) = .ok "0xbbb" ∧
    processRequest 3 chainConflict 2 (some 10) reqConfirmedA =
      .step (some 12)
        (some { reqConfirmedA with
                status := DelegateRequest.status.mining,
                transactionHash := some "0xbbb",
                nonce := some 11 }) :=
  ⟨rfl,
   (c4_publish_retry chainConflict reqConfirmedA).2.2.1 2 (some 10) (some 11) "0xbbb" rfl,
   (c4_publish_retry chainConflict reqConfirmedA).2.2.2 3 2 (some 10) (some 11) "0xbbb" rfl rfl⟩

/-- C9: publisher nonce monotonicity. A successful `publishTransaction` call
started at candidate nonce `c` returns a present nonce `m` with `c ≤ m`: each
conflict retry increases the candidate by exactly 1 and never decreases it. -/
theorem c9_nonce_monotonic (chain : Chain) (r : Request) (fuel : Nat) (c : Int)
    (nr : Option Int) (hash : String)
    (hp : publishTransaction chain r (some c) fuel = some (.ok (hash, nr))) :
    ∃ m, nr = some m ∧ c ≤ m := by
  induction fuel generalizing c with
  | zero =>
    simp [publishTransaction] at hp
  | succ fuel ih =>
    cases hsub : chain.submit r (some c) with
    | ok th =>
      have heq : publishTransaction chain r (some c) (fuel + 1) =
          some (.ok (th, some c)) := by
        rw [publishTransaction, hsub]
      rw [heq] at hp
      simp only [Option.some.injEq, Except.ok.injEq, Prod.mk.injEq] at hp
      exact ⟨c, hp.2.symm, le_refl c⟩
    | error e =>
      have heq : publishTransaction chain r (some c) (fuel + 1) =
          if e.code = some ErrCode.NONCE_EXPIRED ∨
              e.code = some ErrCode.REPLACEMENT_UNDERPRICED
          then publishTransaction chain r (jsAdd1 (some c)) fuel
          else some (.error e) := by
        rw [publishTransaction, hsub]
      rw [heq] at hp
      by_cases hc : e.code = some ErrCode.NONCE_EXPIRED ∨
          e.code = some ErrCode.REPLACEMENT_UNDERPRICED
      · rw [if_pos hc] at hp
        obtain ⟨m, hm, hle⟩ := ih (c + 1) (by simpa [jsAdd1] using hp)
        exact ⟨m, hm, by omega⟩
      · rw [if_neg hc] at hp
        simp at hp

/-- Witness for C9 at a concrete input: started at candidate nonce 10, the
publisher succeeds at nonce 11, and 10 ≤ 11. -/
theorem c9_nonce_monotonic_witness :
    publishTransaction chainConflict reqConfirmedA (some 10) 2 =
      some (.ok ("0xbbb", some 11)) ∧
    ∃ m, (some 11 : Option Int) = some m ∧ (10 : Int) ≤ m :=
  ⟨rfl, c9_nonce_monotonic chainConflict reqConfirmedA 2 10 (some 11) "0xbbb" rfl⟩

/-- C5: confirmation gating. For a `mining` request: (1) with a receipt at or
above the required confirmation threshold, the document is persisted as mined
with the receipt's numeric fields de-bignumberified and the nonce fetched from
the chain's transaction lookup, and the cursor becomes that nonce + 1; (2)
with a receipt below the threshold, no update is persisted (the request stays
`mining`); (3) with no receipt, no update is persisted either; (4) the
de-bignumberified fields are plain numbers. -/
theorem c5_confirmation_gating (requiredConfirmations : Int) (chain : Chain) (fuel : Nat)
    (cursor : Option Int) (r : Request)
    (hs : r.status = DelegateRequest.status.mining) :
    (∀ rc, chain.getTransactionReceipt r.transactionHash = some rc →
      requiredConfirmations ≤ rc.confirmations →
      processRequest requiredConfirmations chain fuel cursor r =
        .step (some (chain.getTransaction r.transactionHash + 1))
          (some { r with
                  status := DelegateRequest.status.mined,
                  txReceipt := some { rc with
                    gasUsed := unaryPlus rc.gasUsed,
                    cumulativeGasUsed := unaryPlus rc.cumulativeGasUsed },
                  nonce := some (chain.getTransaction r.transactionHash) })) ∧
    (∀ rc, chain.getTransactionReceipt r.transactionHash = some rc →
      rc.confirmations < requiredConfirmations →
      processRequest requiredConfirmations chain fuel cursor r =
        .step (if jsTruthy r.nonce then jsAdd1 r.nonce else jsAdd1 cursor) none) ∧
    (chain.getTransactionReceipt r.transactionHash = none →
      processRequest requiredConfirmations chain fuel cursor r =
        .step (jsAdd1 cursor) none) ∧
    (∀ x : EthAmount, (unaryPlus x).isPlain = true) := by
  refine ⟨?_, ?_, ?_, ?_⟩
  · intro rc hr hge
    rw [processRequest, hs, hr]
    simp [DelegateRequest.status.mining, DelegateRequest.status.mined,
      not_lt.mpr hge]
  · intro rc hr hlt
    rw [processRequest, hs, hr]
    simp [DelegateRequest.status.mining, DelegateRequest.status.mined, hlt]
  · intro hr
    rw [processRequest, hs, hr]
    simp [DelegateRequest.status.mining, DelegateRequest.status.mined]
  · intro x
    cases x <;> rfl

/-- Witness for C5 at a concrete input: threshold 3, receipt with 5
confirmations, chain transaction lookup reporting nonce 7; the request is
persisted as mined with plain-number receipt fields and the cursor becomes
8. -/
theorem c5_confirmation_gating_witness :
    processRequest 3 chainHigh 5 (some 9) reqMiningNonce4 =
      .step (some 8)
        (some { reqMiningNonce4 with
                status := DelegateRequest.status.mined,
                txReceipt := some { rcHigh with
                  gasUsed := EthAmount.num 21000,
                  cumulativeGasUsed := EthAmount.num 42000 },
                nonce := some 7 }) :=
  (c5_confirmation_gating 3 chainHigh 5 (some 9) reqMiningNonce4 rfl).1 rcHigh rfl
    (by decide)

/-- C8 counterexample: a context that supplies the expiry 0 (a valid Unix
timestamp). The code's truthiness test treats it as absent, so the created
document's `expiresAt` is the default window, not the supplied value. -/
theorem c8_counterexample :
    (create 3600 1000 { expiresAt := some 0 }).expiresAt = 1000 + 3600 * 1000 ∧
    (create 3600 1000 { expiresAt := some 0 }).expiresAt ≠ 0 * 1000 := by
  constructor
  · decide
  · decide

/-- C8 (amended): for every created request, `createdAt` is the creation
timestamp; a supplied nonzero expiry is used (as Unix seconds, stored as a
millisecond timestamp); and when the expiry is absent or zero, `expiresAt` is
the creation timestamp plus the configured default window. -/
theorem c8_expiry_default (defaultExpiresAtSeconds nowMs : Int) (context : CreateContext) :
    (create defaultExpiresAtSeconds nowMs context).createdAt = nowMs ∧
    (∀ e : Int, context.expiresAt = some e → e ≠ 0 →
      (create defaultExpiresAtSeconds nowMs context).expiresAt = e * 1000) ∧
    (context.expiresAt = none ∨ context.expiresAt = some 0 →
      (create defaultExpiresAtSeconds nowMs context).expiresAt =
        nowMs + defaultExpiresAtSeconds * 1000) := by
  refine ⟨rfl, ?_, ?_⟩
  · intro e he hne
    simp [create, jsTruthy, he, hne]
  · intro hd
    cases hd with
    | inl h => simp [create, jsTruthy, h]
    | inr h => simp [create, jsTruthy, h]

/-- Witness for C8 (amended) at concrete inputs: default window 3600 s,
creation time 1000 ms; a supplied expiry of 9 s gives 9000 ms, an absent
expiry gives 1000 + 3600000 ms. -/
theorem c8_expiry_default_witness :
    (create 3600 1000 { expiresAt := some 9 }).createdAt = 1000 ∧
    (create 3600 1000 { expiresAt := some 9 }).expiresAt = 9 * 1000 ∧
    (create 3600 1000 { expiresAt := none }).expiresAt = 1000 + 3600 * 1000 :=
  ⟨(c8_expiry_default 3600 1000 { expiresAt := some 9 }).1,
   (c8_expiry_default 3600 1000 { expiresAt := some 9 }).2.1 9 rfl (by decide),
   (c8_expiry_default 3600 1000 { expiresAt := none }).2.2 (Or.inl rfl)⟩

end Tx
